import Mathlib

/-!
Verification development for the DShot protocol driver core
(src/pico/dshot.c, src/pico/dshot.h).

The driver is embedded shallowly:
* machine integers become `Nat` with explicit truncation (`% 65536` for a
  `uint16_t` assignment, `% 256` for `uint8_t`, masks `&&& 0xF` etc. exactly
  where the C source masks);
* the mutable `struct dshot_controller` becomes a record threaded through
  each operation; the motor array is modelled as a total map `Nat → DshotMotor`
  so that every per-channel claim can be stated uniformly (the physical
  one-element array bound of `dshot.h` is modelled separately below by
  `DshotControllerArr` with `Option`-returning indexing);
* wall-clock time (`get_absolute_time`) becomes an explicit `now : Nat`
  parameter in microseconds; `absolute_time_diff_us(a, b)` is `(b : Int) - a`;
* the telemetry callback is modelled as the emitted event (an
  `Option DshotEvent` result): the C code invokes the registered observer
  exactly when the model produces `some` event;
* PIO hardware calls (`pio_sm_put`, fifo tests, pin reconfiguration) are
  modelled by an explicit `tx_fifo_empty : Bool` input and by returning the
  32-bit word pushed for transmission.  The second pushed word (the 25 us
  receive-window cycle count, computed from the float clock divisor) is
  hardware-timing glue that no claim refers to and is not modelled.
-/

/-- `#define DSHOT_IDLE_THRESHOLD 200000` (microseconds), dshot.h line 8. -/
def DSHOT_IDLE_THRESHOLD : Nat := 200000

/-- `#define DSHOT_MAX_CHANNELS_PER_CONTROLLER 1`, dshot.h line 7. -/
def DSHOT_MAX_CHANNELS_PER_CONTROLLER : Nat := 1

/-- `enum dshot_telemetry_type`, dshot.h. -/
inductive DshotTelemetryType where
  | erpm
  | voltage
  | current
  | temperature
deriving DecidableEq

/-- `struct dshot_motor_stats`, dshot.h: rolling receive statistics. -/
structure DshotMotorStats where
  rx_frames : Nat
  rx_bad_gcr : Nat
  rx_bad_crc : Nat
  rx_bad_type : Nat
  rx_timeout : Nat
deriving DecidableEq

/-- All-zero statistics (the `memset` in `dshot_controller_init`). -/
def dshot_stats_zero : DshotMotorStats :=
  { rx_frames := 0, rx_bad_gcr := 0, rx_bad_crc := 0, rx_bad_type := 0, rx_timeout := 0 }

/-- `struct dshot_motor`, dshot.h. -/
structure DshotMotor where
  frame : Nat
  last_throttle_frame : Nat
  command_counter : Nat
  stats : DshotMotorStats
deriving DecidableEq

/-- All-zero motor record (the `memset` in `dshot_controller_init`). -/
def dshot_motor_zero : DshotMotor :=
  { frame := 0, last_throttle_frame := 0, command_counter := 0, stats := dshot_stats_zero }

/-- `struct dshot_controller`, dshot.h, restricted to the fields the core
    state machine reads and writes.  `motor` is a total map so that claims
    quantified over `num_channels` channels can be stated; the physical
    one-element array bound is modelled by `DshotControllerArr` below. -/
structure DshotController where
  num_channels : Nat
  channel : Nat
  motor : Nat → DshotMotor
  command_last_time : Nat

/-- Telemetry observer invocation, `controller->telemetry_cb(...)` in
    `dshot_interpret_erpm_telemetry`. -/
structure DshotEvent where
  channel : Nat
  type : DshotTelemetryType
  value : Nat
deriving DecidableEq

/-- `dshot_compute_frame` (dshot.c lines 205-215).
    `frame` and the return value are `uint16_t`, hence the `% 65536`
    truncations; `~crc & 0x0F` is rendered as `crc ^^^ 0x0F` (equal on the
    low 4 bits that the mask keeps). -/
def dshot_compute_frame (value : Nat) (telemetry_request : Bool) : Nat :=
  let value := value % 65536
  let frame := ((value <<< 1) ||| (if telemetry_request then 1 else 0)) % 65536
  let crc := (frame ^^^ (frame >>> 4) ^^^ (frame >>> 8)) &&& 0x0F
  let crc := crc ^^^ 0x0F
  ((frame <<< 4) ||| crc) % 65536

/-- `dshot_gcr_lookup` (dshot.c lines 68-77): the value returned and the
    `*error` out-parameter (sentinel `0xFFFFFFFF` on a miss, as in the C). -/
def dshot_gcr_lookup (gcr : Nat) : Nat × Bool :=
  match gcr with
  | 0x19 => (0, false)
  | 0x1B => (1, false)
  | 0x12 => (2, false)
  | 0x13 => (3, false)
  | 0x1D => (4, false)
  | 0x15 => (5, false)
  | 0x16 => (6, false)
  | 0x17 => (7, false)
  | 0x1A => (8, false)
  | 0x09 => (9, false)
  | 0x0A => (10, false)
  | 0x0B => (11, false)
  | 0x1E => (12, false)
  | 0x0D => (13, false)
  | 0x0E => (14, false)
  | 0x0F => (15, false)
  | _ => (0xFFFFFFFF, true)

/-- `gcr_frame = (raw_value ^ (raw_value >> 1)) & 0xFFFFF` (dshot.c line 131). -/
def dshot_gcr_frame (raw_value : Nat) : Nat :=
  (raw_value ^^^ (raw_value >>> 1)) &&& 0xFFFFF

/-- The `edt_frame` reassembly of dshot.c lines 133-137, together with the
    accumulated `error` flag of the four `dshot_gcr_lookup` calls. -/
def dshot_edt_frame (g : Nat) : Nat × Bool :=
  let p1 := dshot_gcr_lookup ((g >>> 15) &&& 0x1F)
  let p2 := dshot_gcr_lookup ((g >>> 10) &&& 0x1F)
  let p3 := dshot_gcr_lookup ((g >>> 5) &&& 0x1F)
  let p4 := dshot_gcr_lookup (g &&& 0x1F)
  (((p1.1 <<< 12) ||| (p2.1 <<< 8) ||| (p3.1 <<< 4) ||| p4.1) &&& 0xFFFF,
   p1.2 || p2.2 || p3.2 || p4.2)

/-- `calculated_crc = ~((edt >> 12) ^ (edt >> 8) ^ (edt >> 4)) & 0x0F`
    (dshot.c line 144); the bitwise complement under the 4-bit mask is
    rendered as `^^^ 0xF`. -/
def dshot_calculated_crc (edt : Nat) : Nat :=
  (((edt >>> 12) ^^^ (edt >>> 8) ^^^ (edt >>> 4)) ^^^ 0xF) &&& 0x0F

/-- Decode outcome of one received raw word (the four early-return paths of
    `dshot_receive`, dshot.c lines 120-152). -/
inductive DshotRxStatus where
  | empty
  | gcrBad
  | crcBad
  | ok (edt : Nat)
deriving DecidableEq

/-- The pure decoding logic of `dshot_receive` (dshot.c lines 120-152):
    which of the four paths (timeout / bad GCR / bad CRC / interpret) the
    raw word takes, and the reassembled extended-telemetry frame on success. -/
def dshot_decode_reverse (raw_value : Nat) : DshotRxStatus :=
  if raw_value = 0 then .empty
  else
    let ef := dshot_edt_frame (dshot_gcr_frame raw_value)
    if ef.2 then .gcrBad
    else if dshot_calculated_crc ef.1 ≠ (ef.1 &&& 0x0F) then .crcBad
    else .ok ef.1

/-- `e_val = (edt & 0xE000) >> 13` (dshot.c line 85). -/
def dshot_e_val (edt : Nat) : Nat := (edt &&& 0xE000) >>> 13

/-- `m_val = (edt & 0x1FF0) >> 4` (dshot.c line 86). -/
def dshot_m_val (edt : Nat) : Nat := (edt &&& 0x1FF0) >>> 4

/-- The `switch` scrutinee `(edt & 0xF000) >> 12` (dshot.c line 88). -/
def dshot_tag (edt : Nat) : Nat := (edt &&& 0xF000) >>> 12

/-- Classification result of `dshot_interpret_erpm_telemetry`:
    either a telemetry value of some type (the function then bumps
    `rx_frames` and dispatches to the observer), or the reserved-type
    early return (which bumps `rx_bad_type` and dispatches nothing). -/
inductive DshotRxResult where
  | telemetry (t : DshotTelemetryType) (value : Nat)
  | badType
deriving DecidableEq

/-- The classification and numeric transform of
    `dshot_interpret_erpm_telemetry` (dshot.c lines 79-118); the C `switch`
    is rendered as the equivalent chain of equality tests.  In the default
    (eRPM) branch `value = m_val << e_val` never exceeds
    `0x1FF << 7 = 0xFF80`, so the `int` arithmetic of the C never
    overflows and plain `Nat` arithmetic is exact. -/
def dshot_interpret_erpm_telemetry (edt : Nat) : DshotRxResult :=
  if dshot_tag edt = 0x2 then .telemetry .temperature (dshot_m_val edt)
  else if dshot_tag edt = 0x4 then .telemetry .voltage (dshot_m_val edt / 4)
  else if dshot_tag edt = 0x6 then .telemetry .current (dshot_m_val edt)
  else if dshot_tag edt = 0x8 ∨ dshot_tag edt = 0xA ∨ dshot_tag edt = 0xC ∨ dshot_tag edt = 0xE then
    .badType
  else if dshot_m_val edt <<< dshot_e_val edt = 0xFF80 then .telemetry .erpm 0
  else if dshot_m_val edt <<< dshot_e_val edt ≠ 0 then
    .telemetry .erpm (60000000 / (dshot_m_val edt <<< dshot_e_val edt))
  else .telemetry .erpm (dshot_m_val edt <<< dshot_e_val edt)

/-- `&controller->motor[controller->channel]`. -/
def dshot_active_motor (c : DshotController) : DshotMotor := c.motor c.channel

/-- Write back through the `&controller->motor[controller->channel]` pointer. -/
def dshot_set_active_motor (c : DshotController) (m : DshotMotor) : DshotController :=
  { c with motor := fun j => if j = c.channel then m else c.motor j }

/-- `dshot_receive` + `dshot_interpret_erpm_telemetry` as a state transformer
    (dshot.c lines 79-152): updates the active motor's statistics and returns
    the observer invocation, if any. -/
def dshot_receive (c : DshotController) (raw_value : Nat) : DshotController × Option DshotEvent :=
  match dshot_decode_reverse raw_value with
  | .empty =>
      let m := dshot_active_motor c
      (dshot_set_active_motor c
        { m with stats := { m.stats with rx_timeout := m.stats.rx_timeout + 1 } }, none)
  | .gcrBad =>
      let m := dshot_active_motor c
      (dshot_set_active_motor c
        { m with stats := { m.stats with rx_bad_gcr := m.stats.rx_bad_gcr + 1 } }, none)
  | .crcBad =>
      let m := dshot_active_motor c
      (dshot_set_active_motor c
        { m with stats := { m.stats with rx_bad_crc := m.stats.rx_bad_crc + 1 } }, none)
  | .ok edt =>
      match dshot_interpret_erpm_telemetry edt with
      | .badType =>
          let m := dshot_active_motor c
          (dshot_set_active_motor c
            { m with stats := { m.stats with rx_bad_type := m.stats.rx_bad_type + 1 } }, none)
      | .telemetry t v =>
          let m := dshot_active_motor c
          (dshot_set_active_motor c
            { m with stats := { m.stats with rx_frames := m.stats.rx_frames + 1 } },
           some { channel := c.channel, type := t, value := v })

/-- The channel rotation of `dshot_cycle_channel` (dshot.c line 157); the
    surrounding PIO stop/reconfigure/restart calls are hardware glue with no
    controller-state effect. -/
def dshot_cycle_channel (c : DshotController) : DshotController :=
  { c with channel := (c.channel + 1) % c.num_channels }

/-- The command-counter block of `dshot_loop_async_start`
    (dshot.c lines 172-177) acting on one motor. -/
def dshot_motor_step (m : DshotMotor) : DshotMotor :=
  if m.command_counter > 0 then
    let m1 := { m with command_counter := m.command_counter - 1 }
    if m1.command_counter = 0 then { m1 with frame := m1.last_throttle_frame } else m1
  else m

/-- The 32-bit word `(~motor->frame) << 16` pushed by `pio_sm_put`
    (dshot.c line 180): the `uint16_t` frame is complemented and shifted to
    the upper half of the 32-bit word. -/
def dshot_tx_word (frame : Nat) : Nat :=
  (((frame % 65536) ^^^ 0xFFFF) <<< 16) % 4294967296

/-- `dshot_loop_async_start` (dshot.c lines 163-185).  `tx_fifo_empty` is the
    `pio_sm_is_tx_fifo_empty` test; the returned word is the frame word pushed
    when it holds. -/
def dshot_loop_async_start (c : DshotController) (tx_fifo_empty : Bool) :
    DshotController × Option Nat :=
  let c1 := if c.num_channels > 1 then dshot_cycle_channel c else c
  let m := dshot_motor_step (dshot_active_motor c1)
  let c2 := dshot_set_active_motor c1 m
  (c2, if tx_fifo_empty then some (dshot_tx_word m.frame) else none)

/-- The channel a `dshot_loop_async_start` call services: the post-rotation
    active channel (rotation happens only when `num_channels > 1`). -/
def dshot_serviced_channel (c : DshotController) : Nat :=
  if c.num_channels > 1 then (c.channel + 1) % c.num_channels else c.channel

/-- `dshot_throttle` (dshot.c lines 229-240).  `channel_idx` and `throttle`
    are `uint16_t` parameters; `now` is the `get_absolute_time()` stamp. -/
def dshot_throttle (c : DshotController) (channel_idx throttle now : Nat) : DshotController :=
  let channel_idx := channel_idx % 65536
  if channel_idx ≥ c.num_channels then c
  else
    let f := dshot_compute_frame throttle false
    let m := c.motor channel_idx
    let m := { m with frame := f, last_throttle_frame := f, command_counter := 0 }
    { c with motor := fun j => if j = channel_idx then m else c.motor j,
             command_last_time := now }

/-- `dshot_command` (dshot.c lines 217-227). -/
def dshot_command (c : DshotController) (channel_idx command now : Nat) : DshotController :=
  let channel_idx := channel_idx % 65536
  if channel_idx ≥ c.num_channels then c
  else
    let m := c.motor channel_idx
    let m := { m with frame := dshot_compute_frame command true, command_counter := 12 }
    { c with motor := fun j => if j = channel_idx then m else c.motor j,
             command_last_time := now }

/-- The `for (i = 0; i < num_channels; i++) dshot_throttle(controller, i, 0)`
    loop shared by `dshot_controller_init` and the idle watchdog of
    `dshot_loop_async_complete`. -/
def dshot_zero_all_channels (c : DshotController) (now : Nat) : DshotController :=
  (List.range c.num_channels).foldl (fun acc i => dshot_throttle acc i 0 now) c

/-- `dshot_loop_async_complete` (dshot.c lines 187-198): receive one raw
    word, then run the idle watchdog
    (`absolute_time_diff_us(command_last_time, now) > DSHOT_IDLE_THRESHOLD`). -/
def dshot_loop_async_complete (c : DshotController) (raw_value now : Nat) :
    DshotController × Option DshotEvent :=
  let r := dshot_receive c raw_value
  let c2 :=
    if (now : Int) - (r.1.command_last_time : Int) > (DSHOT_IDLE_THRESHOLD : Int) then
      dshot_zero_all_channels r.1 now
    else r.1
  (c2, r.2)

/-- `dshot_controller_init` (dshot.c lines 25-61), restricted to the
    controller-state effects: `memset` to zero, `num_channels = channels`
    (a `uint8_t` field), the throttle-0 loop, and the final
    `command_last_time = get_absolute_time()` stamp.  PIO program upload,
    pin and clock configuration have no effect on this state. -/
def dshot_controller_init (channels now : Nat) : DshotController :=
  let c0 : DshotController :=
    { num_channels := channels % 256, channel := 0,
      motor := fun _ => dshot_motor_zero, command_last_time := 0 }
  let c1 := dshot_zero_all_channels c0 now
  { c1 with command_last_time := now }

/-- `dshot_loop` (dshot.c lines 200-203): start then complete. -/
def dshot_loop (c : DshotController) (tx_fifo_empty : Bool) (raw_value now : Nat) :
    DshotController × Option DshotEvent :=
  dshot_loop_async_complete (dshot_loop_async_start c tx_fifo_empty).1 raw_value now

/-- The physical controller layout of dshot.h: the motor array is declared
    `struct dshot_motor motor[DSHOT_MAX_CHANNELS_PER_CONTROLLER]`, i.e. it
    has exactly one element, while `num_channels` is stored unvalidated. -/
structure DshotControllerArr where
  num_channels : Nat
  channel : Nat
  motorArr : List DshotMotor
  command_last_time : Nat
deriving DecidableEq

/-- Total (Option-returning) indexing into the physical motor array:
    `controller->motor[i]` in bounds returns the record, out of bounds
    returns `none`. -/
def dshot_motor_lookup (c : DshotControllerArr) (i : Nat) : Option DshotMotor :=
  c.motorArr[i]?

/-- `dshot_controller_init` on the physical layout: `memset` zeroes the
    one-element array, and `controller->num_channels = channels` stores the
    `uint8_t`-truncated argument without any validation against
    `DSHOT_MAX_CHANNELS_PER_CONTROLLER`. -/
def dshot_controller_init_arr (channels : Nat) : DshotControllerArr :=
  { num_channels := channels % 256, channel := 0,
    motorArr := List.replicate DSHOT_MAX_CHANNELS_PER_CONTROLLER dshot_motor_zero,
    command_last_time := 0 }

/-- The CRC rule as the spec phrases it: the bitwise-not of the XOR of the
    three nibbles of the preceding 12 bits, masked to 4 bits. -/
def dshot_spec_crc (q : Nat) : Nat :=
  (((q >>> 8) &&& 0xF) ^^^ ((q >>> 4) &&& 0xF) ^^^ (q &&& 0xF)) ^^^ 0xF

/-- One synchronous loop iteration, state part only, with the transmit fifo
    empty (the iteration scheme of the spec's scenario claims). -/
def dshot_start_state (c : DshotController) : DshotController :=
  (dshot_loop_async_start c true).1

/-- The channels serviced by `k` successive `dshot_loop_async_start` calls,
    in order. -/
def dshot_visited_channels (c : DshotController) : Nat → List Nat
  | 0 => []
  | Nat.succ k =>
      (dshot_start_state c).channel :: dshot_visited_channels (dshot_start_state c) k

/-- Controller states reachable from `dshot_controller_init` by the public
    driver API. -/
inductive DshotReachable : DshotController → Prop where
  | init (channels now : Nat) : DshotReachable (dshot_controller_init channels now)
  | throttle (c : DshotController) (idx v now : Nat) :
      DshotReachable c → DshotReachable (dshot_throttle c idx v now)
  | command (c : DshotController) (idx cmd now : Nat) :
      DshotReachable c → DshotReachable (dshot_command c idx cmd now)
  | loop_start (c : DshotController) (b : Bool) :
      DshotReachable c → DshotReachable (dshot_loop_async_start c b).1
  | loop_complete (c : DshotController) (raw now : Nat) :
      DshotReachable c → DshotReachable (dshot_loop_async_complete c raw now).1

/-- The data-model invariant of the spec: an idle command counter means the
    outbound frame is the latched throttle frame. -/
def dshot_frame_inv (c : DshotController) : Prop :=
  ∀ i, (c.motor i).command_counter = 0 →
    (c.motor i).frame = (c.motor i).last_throttle_frame

/-- Pointwise order on statistics: every counter is no smaller. -/
def dshot_stats_le (s t : DshotMotorStats) : Prop :=
  s.rx_frames ≤ t.rx_frames ∧ s.rx_bad_gcr ≤ t.rx_bad_gcr ∧
  s.rx_bad_crc ≤ t.rx_bad_crc ∧ s.rx_bad_type ≤ t.rx_bad_type ∧
  s.rx_timeout ≤ t.rx_timeout

/-- The spec's Scenario F controller: a single-channel controller after
    `set_throttle(0, 500)` followed by `send_command(0, 13)` (time stamps 0). -/
def dshot_scenarioF : DshotController :=
  dshot_command (dshot_throttle (dshot_controller_init 1 0) 0 500 0) 0 13 0

/-! ### Basic record lemmas -/

theorem dshot_set_active_motor_motor (c : DshotController) (m : DshotMotor) (i : Nat) :
    (dshot_set_active_motor c m).motor i = if i = c.channel then m else c.motor i := rfl

theorem dshot_set_active_motor_num (c : DshotController) (m : DshotMotor) :
    (dshot_set_active_motor c m).num_channels = c.num_channels := rfl

theorem dshot_set_active_motor_channel (c : DshotController) (m : DshotMotor) :
    (dshot_set_active_motor c m).channel = c.channel := rfl

theorem dshot_set_active_motor_time (c : DshotController) (m : DshotMotor) :
    (dshot_set_active_motor c m).command_last_time = c.command_last_time := rfl

/-! ### `dshot_receive` lemmas -/

theorem dshot_receive_fields (c : DshotController) (raw : Nat) :
    (dshot_receive c raw).1.num_channels = c.num_channels ∧
    (dshot_receive c raw).1.channel = c.channel ∧
    (dshot_receive c raw).1.command_last_time = c.command_last_time := by
  unfold dshot_receive
  rcases h1 : dshot_decode_reverse raw with _ | _ | _ | edt <;> simp only [h1]
  case ok =>
    rcases h2 : dshot_interpret_erpm_telemetry edt with ⟨t, v⟩ | _ <;> simp only [h2] <;>
      exact ⟨rfl, rfl, rfl⟩
  all_goals exact ⟨rfl, rfl, rfl⟩

theorem dshot_receive_motor_frames (c : DshotController) (raw i : Nat) :
    ((dshot_receive c raw).1.motor i).frame = (c.motor i).frame ∧
    ((dshot_receive c raw).1.motor i).last_throttle_frame = (c.motor i).last_throttle_frame ∧
    ((dshot_receive c raw).1.motor i).command_counter = (c.motor i).command_counter := by
  unfold dshot_receive
  rcases h1 : dshot_decode_reverse raw with _ | _ | _ | edt <;> simp only [h1]
  case ok =>
    rcases h2 : dshot_interpret_erpm_telemetry edt with ⟨t, v⟩ | _ <;> simp only [h2] <;>
      · simp only [dshot_set_active_motor_motor, dshot_active_motor]
        by_cases hi : i = c.channel <;> simp [hi]
  all_goals
    simp only [dshot_set_active_motor_motor, dshot_active_motor]
    by_cases hi : i = c.channel <;> simp [hi]

theorem dshot_stats_le_refl (s : DshotMotorStats) : dshot_stats_le s s := by
  simp [dshot_stats_le]

theorem dshot_receive_stats_le (c : DshotController) (raw i : Nat) :
    dshot_stats_le ((c.motor i).stats) (((dshot_receive c raw).1.motor i).stats) := by
  unfold dshot_receive
  rcases h1 : dshot_decode_reverse raw with _ | _ | _ | edt <;> simp only [h1]
  case ok =>
    rcases h2 : dshot_interpret_erpm_telemetry edt with ⟨t, v⟩ | _ <;> simp only [h2] <;>
      · simp only [dshot_set_active_motor_motor, dshot_active_motor]
        by_cases hi : i = c.channel <;> simp [hi, dshot_stats_le]
  all_goals
    simp only [dshot_set_active_motor_motor, dshot_active_motor]
    by_cases hi : i = c.channel <;> simp [hi, dshot_stats_le]

/-! ### `dshot_throttle` / `dshot_command` lemmas -/

theorem dshot_throttle_motor (c : DshotController) (idx v now i : Nat) :
    (dshot_throttle c idx v now).motor i =
      if i = idx % 65536 ∧ idx % 65536 < c.num_channels then
        { c.motor i with
            frame := dshot_compute_frame v false
            last_throttle_frame := dshot_compute_frame v false
            command_counter := 0 }
      else c.motor i := by
  unfold dshot_throttle
  by_cases hge : idx % 65536 ≥ c.num_channels
  · rw [if_pos hge, if_neg]
    rintro ⟨-, h2⟩
    omega
  · have hlt : idx % 65536 < c.num_channels := Nat.lt_of_not_le hge
    rw [if_neg hge]
    by_cases hi : i = idx % 65536
    · subst hi
      simp [hlt]
    · simp [hi]

theorem dshot_throttle_num (c : DshotController) (idx v now : Nat) :
    (dshot_throttle c idx v now).num_channels = c.num_channels ∧
    (dshot_throttle c idx v now).channel = c.channel := by
  unfold dshot_throttle
  by_cases hge : idx % 65536 ≥ c.num_channels <;> simp [hge]

theorem dshot_throttle_stats (c : DshotController) (idx v now i : Nat) :
    ((dshot_throttle c idx v now).motor i).stats = (c.motor i).stats := by
  rw [dshot_throttle_motor]
  split <;> rfl

theorem dshot_command_motor (c : DshotController) (idx cmd now i : Nat) :
    (dshot_command c idx cmd now).motor i =
      if i = idx % 65536 ∧ idx % 65536 < c.num_channels then
        { c.motor i with
            frame := dshot_compute_frame cmd true
            command_counter := 12 }
      else c.motor i := by
  unfold dshot_command
  by_cases hge : idx % 65536 ≥ c.num_channels
  · rw [if_pos hge, if_neg]
    rintro ⟨-, h2⟩
    omega
  · have hlt : idx % 65536 < c.num_channels := Nat.lt_of_not_le hge
    rw [if_neg hge]
    by_cases hi : i = idx % 65536
    · subst hi
      simp [hlt]
    · simp [hi]

theorem dshot_command_num (c : DshotController) (idx cmd now : Nat) :
    (dshot_command c idx cmd now).num_channels = c.num_channels ∧
    (dshot_command c idx cmd now).channel = c.channel := by
  unfold dshot_command
  by_cases hge : idx % 65536 ≥ c.num_channels <;> simp [hge]

theorem dshot_command_stats (c : DshotController) (idx cmd now i : Nat) :
    ((dshot_command c idx cmd now).motor i).stats = (c.motor i).stats := by
  rw [dshot_command_motor]
  split <;> rfl

/-! ### `dshot_motor_step` lemmas -/

theorem dshot_motor_step_of_zero (m : DshotMotor) (h : m.command_counter = 0) :
    dshot_motor_step m = m := by
  unfold dshot_motor_step
  rw [if_neg]
  omega

theorem dshot_motor_step_decr (m : DshotMotor) (h : 1 < m.command_counter) :
    dshot_motor_step m = { m with command_counter := m.command_counter - 1 } := by
  unfold dshot_motor_step
  rw [if_pos (by omega)]
  dsimp only
  rw [if_neg (by omega)]

theorem dshot_motor_step_one (m : DshotMotor) (h : m.command_counter = 1) :
    dshot_motor_step m =
      { m with frame := m.last_throttle_frame, command_counter := 0 } := by
  unfold dshot_motor_step
  rw [if_pos (by omega)]
  dsimp only
  rw [if_pos (by omega), h]

theorem dshot_motor_step_stats (m : DshotMotor) :
    (dshot_motor_step m).stats = m.stats := by
  by_cases h0 : m.command_counter = 0
  · rw [dshot_motor_step_of_zero m h0]
  · by_cases h1 : m.command_counter = 1
    · rw [dshot_motor_step_one m h1]
    · rw [dshot_motor_step_decr m (by omega)]

theorem dshot_motor_step_last (m : DshotMotor) :
    (dshot_motor_step m).last_throttle_frame = m.last_throttle_frame := by
  by_cases h0 : m.command_counter = 0
  · rw [dshot_motor_step_of_zero m h0]
  · by_cases h1 : m.command_counter = 1
    · rw [dshot_motor_step_one m h1]
    · rw [dshot_motor_step_decr m (by omega)]

theorem dshot_motor_step_iterate_fields (m : DshotMotor) (k : Nat)
    (hk : k < m.command_counter) :
    (dshot_motor_step^[k] m).frame = m.frame ∧
    (dshot_motor_step^[k] m).last_throttle_frame = m.last_throttle_frame ∧
    (dshot_motor_step^[k] m).command_counter = m.command_counter - k ∧
    (dshot_motor_step^[k] m).stats = m.stats := by
  induction k with
  | zero => exact ⟨rfl, rfl, rfl, rfl⟩
  | succ k ih =>
      obtain ⟨h1, h2, h3, h4⟩ := ih (by omega)
      rw [Function.iterate_succ_apply', dshot_motor_step_decr _ (by omega)]
      refine ⟨h1, h2, ?_, h4⟩
      show (dshot_motor_step^[k] m).command_counter - 1 = m.command_counter - (k + 1)
      omega

theorem dshot_motor_step_restore (m : DshotMotor) (h : 0 < m.command_counter) :
    (dshot_motor_step^[m.command_counter] m).frame = m.last_throttle_frame ∧
    (dshot_motor_step^[m.command_counter] m).last_throttle_frame = m.last_throttle_frame ∧
    (dshot_motor_step^[m.command_counter] m).command_counter = 0 ∧
    (dshot_motor_step^[m.command_counter] m).stats = m.stats := by
  obtain ⟨n, hn⟩ : ∃ n, m.command_counter = n + 1 := ⟨m.command_counter - 1, by omega⟩
  obtain ⟨h1, h2, h3, h4⟩ := dshot_motor_step_iterate_fields m n (by omega)
  rw [hn, Function.iterate_succ_apply', dshot_motor_step_one _ (by omega)]
  exact ⟨h2, h2, rfl, h4⟩

theorem dshot_motor_step_inv (m : DshotMotor)
    (h : m.command_counter = 0 → m.frame = m.last_throttle_frame) :
    (dshot_motor_step m).command_counter = 0 →
      (dshot_motor_step m).frame = (dshot_motor_step m).last_throttle_frame := by
  by_cases h0 : m.command_counter = 0
  · rw [dshot_motor_step_of_zero m h0]
    exact h
  · by_cases h1 : m.command_counter = 1
    · rw [dshot_motor_step_one m h1]
      intro
      rfl
    · rw [dshot_motor_step_decr m (by omega)]
      intro hc
      have hc2 : m.command_counter - 1 = 0 := hc
      omega

/-! ### `dshot_loop_async_start` lemmas -/

theorem dshot_start_motor (c : DshotController) (b : Bool) (i : Nat) :
    ((dshot_loop_async_start c b).1).motor i =
      if i = dshot_serviced_channel c then
        dshot_motor_step (c.motor (dshot_serviced_channel c))
      else c.motor i := by
  unfold dshot_loop_async_start dshot_serviced_channel dshot_cycle_channel
    dshot_active_motor dshot_set_active_motor
  by_cases h : c.num_channels > 1 <;> simp [h]

theorem dshot_start_fields (c : DshotController) (b : Bool) :
    ((dshot_loop_async_start c b).1).channel = dshot_serviced_channel c ∧
    ((dshot_loop_async_start c b).1).num_channels = c.num_channels ∧
    ((dshot_loop_async_start c b).1).command_last_time = c.command_last_time := by
  unfold dshot_loop_async_start dshot_serviced_channel dshot_cycle_channel
    dshot_active_motor dshot_set_active_motor
  by_cases h : c.num_channels > 1 <;> simp [h]

theorem dshot_start_tx (c : DshotController) :
    (dshot_loop_async_start c true).2 =
      some (dshot_tx_word (dshot_motor_step (c.motor (dshot_serviced_channel c))).frame) := by
  unfold dshot_loop_async_start dshot_serviced_channel dshot_cycle_channel
    dshot_active_motor dshot_set_active_motor
  by_cases h : c.num_channels > 1 <;> simp [h]

theorem dshot_serviced_eq (c : DshotController) (h : c.channel < c.num_channels) :
    dshot_serviced_channel c = (c.channel + 1) % c.num_channels := by
  unfold dshot_serviced_channel
  by_cases h1 : c.num_channels > 1
  · rw [if_pos h1]
  · rw [if_neg h1]
    have hn : c.num_channels = 1 := by omega
    have hc : c.channel = 0 := by omega
    simp [hn, hc]

/-! ### Throttle-all-channels fold lemmas -/

theorem dshot_zfold_fields (l : List Nat) (c : DshotController) (now : Nat) :
    ((l.foldl (fun acc j => dshot_throttle acc j 0 now) c)).num_channels = c.num_channels ∧
    ((l.foldl (fun acc j => dshot_throttle acc j 0 now) c)).channel = c.channel := by
  induction l generalizing c with
  | nil => exact ⟨rfl, rfl⟩
  | cons j t ih =>
      simp only [List.foldl_cons]
      obtain ⟨ha, hb⟩ := ih (dshot_throttle c j 0 now)
      obtain ⟨hc, hd⟩ := dshot_throttle_num c j 0 now
      exact ⟨ha.trans hc, hb.trans hd⟩

theorem dshot_zfold_motor (l : List Nat) (c : DshotController) (now i : Nat)
    (hl : ∀ j ∈ l, j < 65536) :
    ((l.foldl (fun acc j => dshot_throttle acc j 0 now) c).motor i) =
      if i ∈ l ∧ i < c.num_channels then
        { c.motor i with
            frame := dshot_compute_frame 0 false
            last_throttle_frame := dshot_compute_frame 0 false
            command_counter := 0 }
      else c.motor i := by
  induction l generalizing c with
  | nil => simp
  | cons j t ih =>
      simp only [List.foldl_cons]
      rw [ih (dshot_throttle c j 0 now) (fun x hx => hl x (List.mem_cons_of_mem _ hx))]
      have hj : j % 65536 = j := Nat.mod_eq_of_lt (hl j (List.mem_cons_self j t))
      rw [(dshot_throttle_num c j 0 now).1, dshot_throttle_motor, hj]
      by_cases hij : i = j
      · subst hij
        by_cases hN : i < c.num_channels
        · rw [if_pos (⟨rfl, hN⟩ : i = i ∧ i < c.num_channels),
              if_pos (⟨List.mem_cons_self i t, hN⟩ : i ∈ i :: t ∧ i < c.num_channels)]
          split <;> rfl
        · rw [if_neg (show ¬(i = i ∧ i < c.num_channels) from fun h => hN h.2)]
          rw [if_neg (show ¬(i ∈ t ∧ i < c.num_channels) from fun h => hN h.2)]
          rw [if_neg (show ¬(i ∈ i :: t ∧ i < c.num_channels) from fun h => hN h.2)]
      · rw [if_neg (show ¬(i = j ∧ j < c.num_channels) from fun h => hij h.1)]
        simp [List.mem_cons, hij]

theorem dshot_zfold_stats (l : List Nat) (c : DshotController) (now i : Nat) :
    (((l.foldl (fun acc j => dshot_throttle acc j 0 now) c)).motor i).stats =
      (c.motor i).stats := by
  induction l generalizing c with
  | nil => rfl
  | cons j t ih =>
      simp only [List.foldl_cons]
      rw [ih (dshot_throttle c j 0 now), dshot_throttle_stats]

theorem dshot_zero_all_motor (c : DshotController) (now i : Nat)
    (hN : c.num_channels ≤ 65536) :
    (dshot_zero_all_channels c now).motor i =
      if i < c.num_channels then
        { c.motor i with
            frame := dshot_compute_frame 0 false
            last_throttle_frame := dshot_compute_frame 0 false
            command_counter := 0 }
      else c.motor i := by
  unfold dshot_zero_all_channels
  rw [dshot_zfold_motor _ _ _ _ (fun j hj => by have := List.mem_range.mp hj; omega)]
  simp [List.mem_range]

theorem dshot_zero_all_fields (c : DshotController) (now : Nat) :
    (dshot_zero_all_channels c now).num_channels = c.num_channels ∧
    (dshot_zero_all_channels c now).channel = c.channel := by
  unfold dshot_zero_all_channels
  exact dshot_zfold_fields _ c now

theorem dshot_frame_inv_throttle (c : DshotController) (idx v now : Nat)
    (h : dshot_frame_inv c) : dshot_frame_inv (dshot_throttle c idx v now) := by
  intro i
  rw [dshot_throttle_motor]
  split
  · intro
    rfl
  · exact h i

theorem dshot_frame_inv_zfold (l : List Nat) (c : DshotController) (now : Nat)
    (h : dshot_frame_inv c) :
    dshot_frame_inv (l.foldl (fun acc j => dshot_throttle acc j 0 now) c) := by
  induction l generalizing c with
  | nil => exact h
  | cons j t ih =>
      simp only [List.foldl_cons]
      exact ih _ (dshot_frame_inv_throttle c j 0 now h)

theorem dshot_frame_inv_receive (c : DshotController) (raw : Nat)
    (h : dshot_frame_inv c) : dshot_frame_inv (dshot_receive c raw).1 := by
  intro i
  obtain ⟨h1, h2, h3⟩ := dshot_receive_motor_frames c raw i
  rw [h1, h2, h3]
  exact h i

theorem dshot_frame_inv_zero_all (c : DshotController) (now : Nat)
    (h : dshot_frame_inv c) : dshot_frame_inv (dshot_zero_all_channels c now) := by
  unfold dshot_zero_all_channels
  exact dshot_frame_inv_zfold _ c now h

/-- Reachable controller states keep `num_channels` in `uint8_t` range and
    satisfy the frame-latch invariant. -/
theorem dshot_reachable_aux (c : DshotController) (hr : DshotReachable c) :
    c.num_channels ≤ 255 ∧ dshot_frame_inv c := by
  induction hr with
  | init channels now =>
      constructor
      · show (dshot_controller_init channels now).num_channels ≤ 255
        unfold dshot_controller_init
        dsimp only
        rw [(dshot_zero_all_fields _ now).1]
        show channels % 256 ≤ 255
        omega
      · intro i
        show ((dshot_controller_init channels now).motor i).command_counter = 0 → _
        unfold dshot_controller_init
        dsimp only
        rw [dshot_zero_all_motor _ now i (by show channels % 256 ≤ 65536; omega)]
        split
        · intro
          rfl
        · intro
          rfl
  | throttle c idx v now hr ih =>
      obtain ⟨hn, hinv⟩ := ih
      refine ⟨?_, dshot_frame_inv_throttle c idx v now hinv⟩
      rw [(dshot_throttle_num c idx v now).1]
      exact hn
  | command c idx cmd now hr ih =>
      obtain ⟨hn, hinv⟩ := ih
      refine ⟨?_, ?_⟩
      · rw [(dshot_command_num c idx cmd now).1]
        exact hn
      · intro i
        rw [dshot_command_motor]
        split
        · intro h12
          have h2 : (12 : Nat) = 0 := h12
          omega
        · exact hinv i
  | loop_start c b hr ih =>
      obtain ⟨hn, hinv⟩ := ih
      refine ⟨?_, ?_⟩
      · rw [(dshot_start_fields c b).2.1]
        exact hn
      · intro i
        rw [dshot_start_motor]
        split
        · exact dshot_motor_step_inv _ (hinv _)
        · exact hinv i
  | loop_complete c raw now hr ih =>
      obtain ⟨hn, hinv⟩ := ih
      have hr1 := dshot_receive_fields c raw
      have hinv1 := dshot_frame_inv_receive c raw hinv
      unfold dshot_loop_async_complete
      dsimp only
      split
      · constructor
        · rw [(dshot_zero_all_fields _ now).1, hr1.1]
          exact hn
        · exact dshot_frame_inv_zero_all _ now hinv1
      · constructor
        · rw [hr1.1]
          exact hn
        · exact hinv1

/-! ### Round-robin iteration lemmas -/

theorem dshot_iterate_channel (k : Nat) :
    ∀ c : DshotController, c.channel < c.num_channels →
      (dshot_start_state^[k] c).channel = (c.channel + k) % c.num_channels ∧
      (dshot_start_state^[k] c).num_channels = c.num_channels := by
  induction k with
  | zero =>
      intro c h
      exact ⟨(Nat.mod_eq_of_lt h).symm, rfl⟩
  | succ k ih =>
      intro c h
      have hN : 0 < c.num_channels := by omega
      have h1 : (dshot_start_state c).channel = (c.channel + 1) % c.num_channels := by
        rw [show (dshot_start_state c).channel = dshot_serviced_channel c from
              (dshot_start_fields c true).1,
            dshot_serviced_eq c h]
      have h2 : (dshot_start_state c).num_channels = c.num_channels :=
        (dshot_start_fields c true).2.1
      have h3 : (dshot_start_state c).channel < (dshot_start_state c).num_channels := by
        rw [h1, h2]
        exact Nat.mod_lt _ hN
      obtain ⟨ha, hb⟩ := ih (dshot_start_state c) h3
      rw [Function.iterate_succ_apply]
      refine ⟨?_, hb.trans h2⟩
      rw [ha, h1, h2, Nat.mod_add_mod]
      congr 1
      omega

theorem dshot_visited_formula (k : Nat) :
    ∀ c : DshotController, c.channel < c.num_channels →
      dshot_visited_channels c k =
        (List.range k).map (fun i => (c.channel + 1 + i) % c.num_channels) := by
  induction k with
  | zero => intro c _; rfl
  | succ k ih =>
      intro c h
      have hN : 0 < c.num_channels := by omega
      have h1 : (dshot_start_state c).channel = (c.channel + 1) % c.num_channels := by
        rw [show (dshot_start_state c).channel = dshot_serviced_channel c from
              (dshot_start_fields c true).1,
            dshot_serviced_eq c h]
      have h2 : (dshot_start_state c).num_channels = c.num_channels :=
        (dshot_start_fields c true).2.1
      have h3 : (dshot_start_state c).channel < (dshot_start_state c).num_channels := by
        rw [h1, h2]
        exact Nat.mod_lt _ hN
      show (dshot_start_state c).channel :: dshot_visited_channels (dshot_start_state c) k = _
      rw [ih _ h3, h1, h2, List.range_succ_eq_map, List.map_cons, List.map_map]
      congr 1
      apply List.map_congr_left
      intro x _
      show ((c.channel + 1) % c.num_channels + 1 + x) % c.num_channels =
        (c.channel + 1 + (x + 1)) % c.num_channels
      rw [Nat.add_assoc, Nat.mod_add_mod]
      congr 1
      omega

theorem dshot_count_aux (N a ch : Nat) (hN : 0 < N) (hch : ch < N) :
    ((List.range N).map (fun i => (a + 1 + i) % N)).count ch = 1 := by
  apply List.count_eq_one_of_mem
  · apply List.Nodup.map_on _ (List.nodup_range _)
    intro x hx y hy hxy
    have hx2 := List.mem_range.mp hx
    have hy2 := List.mem_range.mp hy
    have hmod : x % N = y % N := Nat.ModEq.add_left_cancel' (a + 1) hxy
    rwa [Nat.mod_eq_of_lt hx2, Nat.mod_eq_of_lt hy2] at hmod
  · rw [List.mem_map]
    refine ⟨(ch + N - (a + 1) % N) % N, List.mem_range.mpr (Nat.mod_lt _ hN), ?_⟩
    have hr : (a + 1) % N < N := Nat.mod_lt _ hN
    rw [Nat.add_mod_mod]
    have hdm := Nat.div_add_mod (a + 1) N
    have h1 : a + 1 + (ch + N - (a + 1) % N) = N * ((a + 1) / N) + (N + ch) := by omega
    rw [h1, Nat.mul_add_mod, Nat.add_mod_left, Nat.mod_eq_of_lt hch]

/-! ### Claim theorems -/

/-- For every 11-bit value, the computed frame is the shifted payload
    concatenated with the spec's CRC nibble. -/
theorem dshot_compute_frame_spec (v : Nat) (hv : v < 2048) (tr : Bool) :
    dshot_compute_frame v tr =
      (((v <<< 1) ||| (if tr then 1 else 0)) <<< 4) |||
        dshot_spec_crc ((v <<< 1) ||| (if tr then 1 else 0)) := by
  have h12 : (2 : Nat) ^ 12 = 4096 := by norm_num
  have h16 : (2 : Nat) ^ 16 = 65536 := by norm_num
  have hv1 : v <<< 1 < 2 ^ 12 := by
    rw [Nat.shiftLeft_eq]
    have h1 : (2 : Nat) ^ 1 = 2 := by norm_num
    omega
  have hb : (if tr then (1 : Nat) else 0) < 2 ^ 12 := by split <;> omega
  have hp : (v <<< 1) ||| (if tr then 1 else 0) < 2 ^ 12 := Nat.or_lt_two_pow hv1 hb
  have hps : ((v <<< 1) ||| (if tr then 1 else 0)) <<< 4 < 2 ^ 16 := by
    rw [Nat.shiftLeft_eq]
    have h4 : (2 : Nat) ^ 4 = 16 := by norm_num
    omega
  have hcrc : ((((v <<< 1) ||| (if tr then 1 else 0)) ^^^
      (((v <<< 1) ||| (if tr then 1 else 0)) >>> 4) ^^^
      (((v <<< 1) ||| (if tr then 1 else 0)) >>> 8)) &&& 0xF) ^^^ 0xF < 2 ^ 16 := by
    apply Nat.xor_lt_two_pow
    · exact Nat.lt_of_le_of_lt Nat.and_le_right (by omega)
    · omega
  unfold dshot_compute_frame
  dsimp only
  rw [Nat.mod_eq_of_lt (show v < 65536 by omega),
      Nat.mod_eq_of_lt (show (v <<< 1) ||| (if tr then 1 else 0) < 65536 by omega),
      Nat.mod_eq_of_lt (h16 ▸ Nat.or_lt_two_pow hps hcrc)]
  congr 1
  unfold dshot_spec_crc
  rw [Nat.and_xor_distrib_right, Nat.and_xor_distrib_right]
  congr 1
  ac_rfl

/-- C8 (amended): `dshot_compute_frame 1047 0` returns `0x82EB` (not the
    `0x82F3` the claim states), and for every 11-bit value the frame is
    `((value << 1) | telemetry_bit)` concatenated with the 4-bit CRC equal to
    the bitwise-not of the XOR of the three nibbles of the preceding 12 bits,
    masked to 4 bits. -/
theorem dshot_C8_encode_forward :
    dshot_compute_frame 1047 false = 0x82EB ∧
    (∀ v : Nat, v < 2048 → ∀ tr : Bool,
      dshot_compute_frame v tr =
        ((((v <<< 1) ||| (if tr then 1 else 0)) <<< 4) |||
          dshot_spec_crc ((v <<< 1) ||| (if tr then 1 else 0)))) := by
  constructor
  · decide
  · exact fun v hv tr => dshot_compute_frame_spec v hv tr

/-- C8 counterexample: the claim asserts `encode_forward(1047, 0) = 0x82F3`;
    the code returns `0x82EB`. -/
theorem dshot_C8_counterexample :
    dshot_compute_frame 1047 false = 0x82EB ∧
    dshot_compute_frame 1047 false ≠ 0x82F3 := by decide

/-- C8 witness: the general encoding law applied at value 1047. -/
theorem dshot_C8_witness :
    (1047 : Nat) < 2048 ∧
    dshot_compute_frame 1047 false =
      ((((1047 <<< 1) ||| (if false then 1 else 0)) <<< 4) |||
        dshot_spec_crc ((1047 <<< 1) ||| (if false then 1 else 0))) :=
  ⟨by decide, dshot_C8_encode_forward.2 1047 (by decide) false⟩

/-- C5 (amended): for every extended frame whose tag is none of
    0x2/0x4/0x6/0x8/0xA/0xC/0xE the classifier computes `period = m << e` and
    reports eRPM 0 for period `0xFF80` or 0, else `60000000 / period`
    truncated; the concrete 9375 example is realised by `e=4, m=0x190`
    (tag 0x9, frame 0x990F), not by `tag=0x0, e=5` which no frame can have. -/
theorem dshot_C5_erpm_computation :
    (∀ edt : Nat,
      dshot_tag edt ≠ 0x2 → dshot_tag edt ≠ 0x4 → dshot_tag edt ≠ 0x6 →
      dshot_tag edt ≠ 0x8 → dshot_tag edt ≠ 0xA → dshot_tag edt ≠ 0xC →
      dshot_tag edt ≠ 0xE →
      ((dshot_m_val edt <<< dshot_e_val edt = 0xFF80 ∨
          dshot_m_val edt <<< dshot_e_val edt = 0 →
        dshot_interpret_erpm_telemetry edt = .telemetry .erpm 0) ∧
       (dshot_m_val edt <<< dshot_e_val edt ≠ 0xFF80 →
        dshot_m_val edt <<< dshot_e_val edt ≠ 0 →
        dshot_interpret_erpm_telemetry edt =
          .telemetry .erpm (60000000 / (dshot_m_val edt <<< dshot_e_val edt))))) ∧
    dshot_interpret_erpm_telemetry 0x990F = .telemetry .erpm 9375 ∧
    dshot_tag 0x990F = 0x9 ∧ dshot_e_val 0x990F = 4 ∧ dshot_m_val 0x990F = 0x190 := by
  refine ⟨?_, by decide, by decide, by decide, by decide⟩
  intro edt h2 h4 h6 h8 hA hC hE
  unfold dshot_interpret_erpm_telemetry
  rw [if_neg h2, if_neg h4, if_neg h6,
      if_neg (show ¬(dshot_tag edt = 0x8 ∨ dshot_tag edt = 0xA ∨ dshot_tag edt = 0xC ∨
        dshot_tag edt = 0xE) by tauto)]
  constructor
  · intro h
    rcases h with h | h
    · rw [if_pos h]
    · rw [if_neg (show dshot_m_val edt <<< dshot_e_val edt ≠ 0xFF80 by omega),
          if_neg (show ¬(dshot_m_val edt <<< dshot_e_val edt ≠ 0) from fun hh => hh h), h]
  · intro hne hnz
    rw [if_neg hne, if_pos hnz]

/-- C5 counterexample: the claim's concrete instance says the frame with
    `e=5, m=0x0C8` reports eRPM 9375; that frame (0xAC81, with valid CRC)
    has tag 0xA and is classified reserved, with no value reported. -/
theorem dshot_C5_counterexample :
    dshot_e_val 0xAC81 = 5 ∧ dshot_m_val 0xAC81 = 0x0C8 ∧
    dshot_calculated_crc 0xAC81 = (0xAC81 &&& 0x0F) ∧
    dshot_interpret_erpm_telemetry 0xAC81 = .badType ∧
    dshot_interpret_erpm_telemetry 0xAC81 ≠ .telemetry .erpm 9375 := by decide

/-- C5 witness: the general eRPM law applied at frame 0x990F. -/
theorem dshot_C5_witness :
    dshot_interpret_erpm_telemetry 0x990F =
      .telemetry .erpm (60000000 / (dshot_m_val 0x990F <<< dshot_e_val 0x990F)) :=
  (dshot_C5_erpm_computation.1 0x990F (by decide) (by decide) (by decide) (by decide)
      (by decide) (by decide) (by decide)).2 (by decide) (by decide)

/-- C6: tag 0x2 is temperature with raw `m`, 0x4 voltage with `m / 4`,
    0x6 current with raw `m`; tags 0x8/0xA/0xC/0xE are reserved:
    `rx_bad_type` is incremented, no observer call occurs, and `rx_frames`
    is unchanged on every channel. -/
theorem dshot_C6_telemetry_classification :
    (∀ edt : Nat, dshot_tag edt = 0x2 →
      dshot_interpret_erpm_telemetry edt = .telemetry .temperature (dshot_m_val edt)) ∧
    (∀ edt : Nat, dshot_tag edt = 0x4 →
      dshot_interpret_erpm_telemetry edt = .telemetry .voltage (dshot_m_val edt / 4)) ∧
    (∀ edt : Nat, dshot_tag edt = 0x6 →
      dshot_interpret_erpm_telemetry edt = .telemetry .current (dshot_m_val edt)) ∧
    (∀ edt : Nat,
      dshot_tag edt = 0x8 ∨ dshot_tag edt = 0xA ∨ dshot_tag edt = 0xC ∨
        dshot_tag edt = 0xE →
      dshot_interpret_erpm_telemetry edt = .badType) ∧
    (∀ (c : DshotController) (raw edt : Nat),
      dshot_decode_reverse raw = .ok edt →
      dshot_interpret_erpm_telemetry edt = .badType →
      (dshot_receive c raw).2 = none ∧
      ((dshot_receive c raw).1.motor c.channel).stats.rx_bad_type
          = (c.motor c.channel).stats.rx_bad_type + 1 ∧
      (∀ i, ((dshot_receive c raw).1.motor i).stats.rx_frames
          = (c.motor i).stats.rx_frames)) := by
  refine ⟨?_, ?_, ?_, ?_, ?_⟩
  · intro edt h
    unfold dshot_interpret_erpm_telemetry
    rw [if_pos h]
  · intro edt h
    unfold dshot_interpret_erpm_telemetry
    rw [if_neg (by omega), if_pos h]
  · intro edt h
    unfold dshot_interpret_erpm_telemetry
    rw [if_neg (by omega), if_neg (by omega), if_pos h]
  · intro edt h
    unfold dshot_interpret_erpm_telemetry
    rw [if_neg (by rcases h with h | h | h | h <;> omega),
        if_neg (by rcases h with h | h | h | h <;> omega),
        if_neg (by rcases h with h | h | h | h <;> omega),
        if_pos h]
  · intro c raw edt hdec hbad
    simp only [dshot_receive, hdec, hbad]
    refine ⟨by trivial, ?_, ?_⟩
    · simp [dshot_set_active_motor_motor, dshot_active_motor]
    · intro i
      simp only [dshot_set_active_motor_motor, dshot_active_motor]
      by_cases hi : i = c.channel <;> simp [hi]

/-- C6 witness: the reserved-tag path exercised on a concrete raw word.
    Raw word 637477 GCR-decodes to frame 0x8007 (tag 0x8, valid CRC). -/
theorem dshot_C6_witness :
    (dshot_receive (dshot_controller_init 1 0) 637477).2 = none ∧
    ((dshot_receive (dshot_controller_init 1 0) 637477).1.motor
        (dshot_controller_init 1 0).channel).stats.rx_bad_type
      = ((dshot_controller_init 1 0).motor
          (dshot_controller_init 1 0).channel).stats.rx_bad_type + 1 :=
  ⟨(dshot_C6_telemetry_classification.2.2.2.2 (dshot_controller_init 1 0) 637477 0x8007
      (by decide) (by decide)).1,
   (dshot_C6_telemetry_classification.2.2.2.2 (dshot_controller_init 1 0) 637477 0x8007
      (by decide) (by decide)).2.1⟩

/-- C7 (amended): for every nonzero 20-bit raw word, a failed GCR quintet
    lookup yields status gcr_bad, a failed CRC check (with all quintets
    valid) yields crc_bad, and every nonzero word outside the GCR image is
    rejected with one of those two statuses.  (Raw word 0 is excluded: the
    code reports the timeout status for it.) -/
theorem dshot_C7_reverse_rejection (raw : Nat) (h20 : raw < 1048576) (h0 : raw ≠ 0) :
    ((dshot_edt_frame (dshot_gcr_frame raw)).2 = true →
      dshot_decode_reverse raw = .gcrBad) ∧
    ((dshot_edt_frame (dshot_gcr_frame raw)).2 = false →
      dshot_calculated_crc (dshot_edt_frame (dshot_gcr_frame raw)).1 ≠
        ((dshot_edt_frame (dshot_gcr_frame raw)).1 &&& 0x0F) →
      dshot_decode_reverse raw = .crcBad) ∧
    ((dshot_edt_frame (dshot_gcr_frame raw)).2 = true →
      dshot_decode_reverse raw = .gcrBad ∨ dshot_decode_reverse raw = .crcBad) := by
  unfold dshot_decode_reverse
  rw [if_neg h0]
  dsimp only
  refine ⟨fun hg => ?_, fun hg hc => ?_, fun hg => ?_⟩
  · rw [if_pos hg]
  · rw [if_neg (by simp [hg]), if_pos hc]
  · left
    rw [if_pos hg]

/-- C7 witness: raw word 3 is nonzero, lies outside the GCR image, and is
    rejected as gcr_bad. -/
theorem dshot_C7_witness :
    (dshot_edt_frame (dshot_gcr_frame 3)).2 = true ∧
    dshot_decode_reverse 3 = .gcrBad :=
  ⟨by decide, (dshot_C7_reverse_rejection 3 (by decide) (by decide)).1 (by decide)⟩

/-- C7 counterexample: raw word 0 is outside the GCR image (its quintets are
    not in the table) but the code reports the timeout status, not gcr_bad or
    crc_bad, so the claim fails at r = 0. -/
theorem dshot_C7_counterexample :
    (dshot_edt_frame (dshot_gcr_frame 0)).2 = true ∧
    dshot_decode_reverse 0 = .empty ∧
    dshot_decode_reverse 0 ≠ .gcrBad ∧
    dshot_decode_reverse 0 ≠ .crcBad := by decide

/-- C1 (amended): whenever the time since the last API stamp strictly
    exceeds the 200000 us idle threshold, the next `dshot_loop_async_complete`
    re-latches throttle 0 on every channel: afterwards every channel's
    `last_throttle_frame` is `encode_forward(0, false)` and its `frame`
    equals `last_throttle_frame`.  (The code's comparison is strict, so an
    elapsed time of exactly 200000 us does not trigger the watchdog.) -/
theorem dshot_C1_idle_watchdog (c : DshotController) (raw now : Nat)
    (hN : c.num_channels ≤ 255)
    (h : (now : Int) - (c.command_last_time : Int) > (DSHOT_IDLE_THRESHOLD : Int)) :
    ∀ i < c.num_channels,
      (((dshot_loop_async_complete c raw now).1.motor i).last_throttle_frame =
        dshot_compute_frame 0 false) ∧
      (((dshot_loop_async_complete c raw now).1.motor i).frame =
        ((dshot_loop_async_complete c raw now).1.motor i).last_throttle_frame) := by
  intro i hi
  have hrf := dshot_receive_fields c raw
  unfold dshot_loop_async_complete
  dsimp only
  rw [if_pos (by rw [hrf.2.2]; exact h)]
  rw [dshot_zero_all_motor _ now i (by rw [hrf.1]; omega)]
  rw [if_pos (by rw [hrf.1]; exact hi)]
  exact ⟨rfl, rfl⟩

/-- C1 counterexample: with the stamp at time 0 and `loop_complete` at time
    exactly 200000 us (an elapsed time of at least 200 ms, as the claim is
    stated), the watchdog does not fire: the channel keeps its throttle-500
    frame. -/
theorem dshot_C1_counterexample :
    ((200000 : Int) -
        (((dshot_throttle (dshot_controller_init 1 0) 0 500 0).command_last_time : Int)) ≥
      (DSHOT_IDLE_THRESHOLD : Int)) ∧
    ¬(((dshot_loop_async_complete (dshot_throttle (dshot_controller_init 1 0) 0 500 0)
          0 200000).1.motor 0).last_throttle_frame = dshot_compute_frame 0 false) := by
  decide

/-- C1 witness: one microsecond past the threshold the watchdog does fire. -/
theorem dshot_C1_witness :
    ((200001 : Int) -
        (((dshot_throttle (dshot_controller_init 1 0) 0 500 0).command_last_time : Int)) >
      (DSHOT_IDLE_THRESHOLD : Int)) ∧
    (((dshot_loop_async_complete (dshot_throttle (dshot_controller_init 1 0) 0 500 0)
        0 200001).1.motor 0).last_throttle_frame = dshot_compute_frame 0 false) :=
  ⟨by decide,
   ((dshot_C1_idle_watchdog (dshot_throttle (dshot_controller_init 1 0) 0 500 0) 0 200001
      (by decide) (by decide)) 0 (by decide)).1⟩

/-- C2 (amended): `dshot_command` sets the channel's frame to
    `encode_forward(command, telemetry_request=true)` and `command_counter`
    to 12; the next 11 per-channel loop iterations transmit the command
    frame, and on the twelfth the counter reaches zero and the frame is
    restored to `last_throttle_frame` *before* transmission, so the twelfth
    iteration already transmits the restored throttle frame (only 11
    iterations transmit the command frame).  Each `dshot_loop_async_start`
    applies exactly this per-channel step to the serviced channel and pushes
    the post-step frame. -/
theorem dshot_C2_command_burst (c : DshotController) (idx cmd now : Nat)
    (hidx : idx < c.num_channels) (hu : idx < 65536) :
    (((dshot_command c idx cmd now).motor idx).frame = dshot_compute_frame cmd true ∧
     ((dshot_command c idx cmd now).motor idx).command_counter = 12) ∧
    (∀ k, 1 ≤ k → k ≤ 11 →
      (dshot_motor_step^[k] ((dshot_command c idx cmd now).motor idx)).frame =
        dshot_compute_frame cmd true) ∧
    ((dshot_motor_step^[12] ((dshot_command c idx cmd now).motor idx)).command_counter = 0 ∧
     (dshot_motor_step^[12] ((dshot_command c idx cmd now).motor idx)).frame =
       (c.motor idx).last_throttle_frame) ∧
    (∀ (d : DshotController) (b : Bool),
      ((dshot_loop_async_start d b).1.motor (dshot_serviced_channel d) =
        dshot_motor_step (d.motor (dshot_serviced_channel d))) ∧
      (∀ j, j ≠ dshot_serviced_channel d →
        (dshot_loop_async_start d b).1.motor j = d.motor j) ∧
      ((dshot_loop_async_start d true).2 =
        some (dshot_tx_word (dshot_motor_step (d.motor (dshot_serviced_channel d))).frame))) := by
  have hm : (dshot_command c idx cmd now).motor idx =
      { c.motor idx with
          frame := dshot_compute_frame cmd true
          command_counter := 12 } := by
    rw [dshot_command_motor,
        if_pos ⟨(Nat.mod_eq_of_lt hu).symm, by rw [Nat.mod_eq_of_lt hu]; exact hidx⟩]
  refine ⟨?_, ?_, ?_, ?_⟩
  · rw [hm]
    exact ⟨rfl, rfl⟩
  · intro k h1 h11
    rw [hm]
    exact (dshot_motor_step_iterate_fields
      { c.motor idx with frame := dshot_compute_frame cmd true, command_counter := 12 }
      k (by exact (show k < 12 by omega))).1
  · rw [hm]
    have hres := dshot_motor_step_restore
      { c.motor idx with frame := dshot_compute_frame cmd true, command_counter := 12 }
      (by exact (show (0 : Nat) < 12 by omega))
    exact ⟨hres.2.2.1, hres.1⟩
  · intro d b
    refine ⟨?_, ?_, dshot_start_tx d⟩
    · rw [dshot_start_motor, if_pos rfl]
    · intro j hj
      rw [dshot_start_motor, if_neg hj]

/-- C2 counterexample: on the Scenario F controller the twelfth loop
    iteration pushes the restored throttle-500 frame, not the command-13
    frame, so "the next 12 loop iterations transmit the command frame" fails
    at the twelfth. -/
theorem dshot_C2_counterexample :
    (dshot_loop_async_start (dshot_start_state^[11] dshot_scenarioF) true).2 =
      some (dshot_tx_word (dshot_compute_frame 500 false)) ∧
    dshot_tx_word (dshot_compute_frame 500 false) ≠
      dshot_tx_word (dshot_compute_frame 13 true) := by
  decide

/-- C2 witness: the command latch applied on a concrete single-channel
    controller. -/
theorem dshot_C2_witness :
    ((dshot_command (dshot_throttle (dshot_controller_init 1 0) 0 500 0) 0 13 0).motor 0).frame =
      dshot_compute_frame 13 true :=
  ((dshot_C2_command_burst (dshot_throttle (dshot_controller_init 1 0) 0 500 0) 0 13 0
      (by decide) (by decide)).1).1

/-- C3: on the Scenario F controller, loop iterations 1..11 transmit the
    command-13 frame (telemetry bit set) and iteration 12 transmits the
    throttle-500 frame (telemetry bit clear); in general, after
    `send_command` and exactly 12 per-channel loop iterations the next
    transmitted frame is `encode_forward(prev_throttle, false)`. -/
theorem dshot_C3_command_restore :
    (∀ j, 1 ≤ j → j ≤ 11 →
      (dshot_loop_async_start (dshot_start_state^[j - 1] dshot_scenarioF) true).2 =
        some (dshot_tx_word (dshot_compute_frame 13 true))) ∧
    (dshot_compute_frame 13 true >>> 4) &&& 1 = 1 ∧
    (dshot_loop_async_start (dshot_start_state^[11] dshot_scenarioF) true).2 =
      some (dshot_tx_word (dshot_compute_frame 500 false)) ∧
    (dshot_compute_frame 500 false >>> 4) &&& 1 = 0 ∧
    (∀ (m : DshotMotor) (cmd v : Nat),
      m.last_throttle_frame = dshot_compute_frame v false →
      (dshot_motor_step^[13]
        { m with frame := dshot_compute_frame cmd true, command_counter := 12 }).frame =
        dshot_compute_frame v false) := by
  refine ⟨?_, by decide, by decide, by decide, ?_⟩
  · intro j h1 h11
    interval_cases j <;> decide
  · intro m cmd v hv
    rw [show (13 : Nat) = 12 + 1 from rfl, Function.iterate_succ_apply']
    have hres := dshot_motor_step_restore
      { m with frame := dshot_compute_frame cmd true, command_counter := 12 }
      (by exact (show (0 : Nat) < 12 by omega))
    have hfix := dshot_motor_step_of_zero
      (dshot_motor_step^[12]
        { m with frame := dshot_compute_frame cmd true, command_counter := 12 })
      hres.2.2.1
    rw [hfix]
    exact hres.1.trans hv

/-- C3 witness: iteration 11 of Scenario F still transmits the command
    frame. -/
theorem dshot_C3_witness :
    (dshot_loop_async_start (dshot_start_state^[11 - 1] dshot_scenarioF) true).2 =
      some (dshot_tx_word (dshot_compute_frame 13 true)) :=
  dshot_C3_command_restore.1 11 (by decide) (by decide)

/-- C4: every `dshot_loop_async_start` advances the active channel by
    exactly 1 modulo `num_channels`; after k iterations the channel is
    `(a + k) mod N`; over N iterations every channel below N is visited
    exactly once. -/
theorem dshot_C4_round_robin (c : DshotController) (hc : c.channel < c.num_channels) :
    (∀ b : Bool, ((dshot_loop_async_start c b).1).channel =
        (c.channel + 1) % c.num_channels) ∧
    (∀ k : Nat, (dshot_start_state^[k] c).channel = (c.channel + k) % c.num_channels) ∧
    (∀ ch, ch < c.num_channels →
      (dshot_visited_channels c c.num_channels).count ch = 1) := by
  have hN : 0 < c.num_channels := by omega
  refine ⟨?_, ?_, ?_⟩
  · intro b
    rw [(dshot_start_fields c b).1, dshot_serviced_eq c hc]
  · intro k
    exact (dshot_iterate_channel k c hc).1
  · intro ch hch
    rw [dshot_visited_formula _ c hc]
    exact dshot_count_aux c.num_channels c.channel ch hN hch

/-- C4 witness: a three-channel controller visits channel 1 exactly once in
    three iterations. -/
theorem dshot_C4_witness :
    (dshot_visited_channels (dshot_controller_init 3 0)
        (dshot_controller_init 3 0).num_channels).count 1 = 1 :=
  (dshot_C4_round_robin (dshot_controller_init 3 0) (by decide)).2.2 1 (by decide)

/-- C9: every reachable controller state satisfies
    `command_counter = 0 → frame = last_throttle_frame` on every channel,
    and every statistics counter is monotonically non-decreasing across
    every driver operation. -/
theorem dshot_C9_invariants :
    (∀ c : DshotController, DshotReachable c → dshot_frame_inv c) ∧
    (∀ (c : DshotController) (idx v now i : Nat),
      dshot_stats_le ((c.motor i).stats) (((dshot_throttle c idx v now).motor i).stats)) ∧
    (∀ (c : DshotController) (idx cmd now i : Nat),
      dshot_stats_le ((c.motor i).stats) (((dshot_command c idx cmd now).motor i).stats)) ∧
    (∀ (c : DshotController) (b : Bool) (i : Nat),
      dshot_stats_le ((c.motor i).stats) ((((dshot_loop_async_start c b).1).motor i).stats)) ∧
    (∀ (c : DshotController) (raw now i : Nat),
      dshot_stats_le ((c.motor i).stats)
        ((((dshot_loop_async_complete c raw now).1).motor i).stats)) := by
  refine ⟨fun c h => (dshot_reachable_aux c h).2, ?_, ?_, ?_, ?_⟩
  · intro c idx v now i
    rw [dshot_throttle_stats]
    exact dshot_stats_le_refl _
  · intro c idx cmd now i
    rw [dshot_command_stats]
    exact dshot_stats_le_refl _
  · intro c b i
    by_cases hi : i = dshot_serviced_channel c
    · rw [dshot_start_motor, if_pos hi, dshot_motor_step_stats, hi]
      exact dshot_stats_le_refl _
    · rw [dshot_start_motor, if_neg hi]
      exact dshot_stats_le_refl _
  · intro c raw now i
    unfold dshot_loop_async_complete
    dsimp only
    split
    · unfold dshot_zero_all_channels
      rw [dshot_zfold_stats]
      exact dshot_receive_stats_le c raw i
    · exact dshot_receive_stats_le c raw i

/-- C9 witness: the invariant holds on a freshly initialized controller. -/
theorem dshot_C9_witness : dshot_frame_inv (dshot_controller_init 1 0) :=
  dshot_C9_invariants.1 (dshot_controller_init 1 0) (DshotReachable.init 1 0)

/-- C10: `DSHOT_MAX_CHANNELS_PER_CONTROLLER` is 1; `dshot_controller_init`
    stores any (uint8-ranged) `channels` argument without validating it
    against that bound while the motor array always has exactly one element,
    so every motor-array access at an index ≥ 1 — as performed by init,
    loop_start, loop_complete, dshot_throttle and dshot_command on a
    controller with channels > 1 — is out of bounds: the total
    Option-returning lookup yields `none`. -/
theorem dshot_C10_array_bound :
    DSHOT_MAX_CHANNELS_PER_CONTROLLER = 1 ∧
    (∀ channels : Nat, channels < 256 →
      (dshot_controller_init_arr channels).num_channels = channels) ∧
    (∀ channels : Nat,
      (dshot_controller_init_arr channels).motorArr.length =
        DSHOT_MAX_CHANNELS_PER_CONTROLLER) ∧
    (∀ c : DshotControllerArr,
      c.motorArr.length = DSHOT_MAX_CHANNELS_PER_CONTROLLER →
      ∀ i, 1 ≤ i → dshot_motor_lookup c i = none) := by
  refine ⟨rfl, ?_, ?_, ?_⟩
  · intro channels h
    exact Nat.mod_eq_of_lt h
  · intro channels
    exact List.length_replicate _ _
  · intro c hlen i hi
    unfold dshot_motor_lookup
    apply List.getElem?_eq_none
    rw [hlen]
    exact hi

/-- C10 witness: initializing with channels = 2 stores num_channels = 2,
    yet the lookup of motor index 1 is out of bounds. -/
theorem dshot_C10_witness :
    (dshot_controller_init_arr 2).num_channels = 2 ∧
    dshot_motor_lookup (dshot_controller_init_arr 2) 1 = none :=
  ⟨dshot_C10_array_bound.2.1 2 (by decide),
   dshot_C10_array_bound.2.2.2 (dshot_controller_init_arr 2)
     (dshot_C10_array_bound.2.2.1 2) 1 (by decide)⟩
